import Mathlib

/-
Shallow embedding of `src/compile_shader.py`.

The script defines two functions:

  * `compile_shader(shader_path, output_path)` runs
    `subprocess.run(['glslangValidator', '-V', shader_path, '-o', output_path],
    check=True, stdout=PIPE, stderr=PIPE)` inside a try-block that catches
    `subprocess.CalledProcessError` only; on success it prints
    `Compiled {shader_path} -> {output_path}` and on a caught error it prints
    `Failed to compile {shader_path}: {e.stderr.decode()}`.
  * `compile_shaders_in_directory(directory)` iterates `os.walk(directory)` and,
    for every file whose name `endswith` one of the six shader extensions, joins
    it to its root, appends `".spv"` and calls `compile_shader`.

The embedding makes the two ambient effects explicit:
  * the operating system's process-spawning behaviour is a function
    `Spawn : List String → SpawnOutcome`, where an outcome is either a completed
    process (with exit status and captured stdout/stderr, modelling the
    `stdout=PIPE, stderr=PIPE` in-memory capture of the blocking call) or a
    spawn failure (the `OSError` family — `FileNotFoundError`,
    `PermissionError` — that `subprocess.run` raises when the executable cannot
    be started at all);
  * the filesystem under the root directory is a finite tree `FSTree`; `walk`
    embeds `os.walk`'s top-down enumeration, and a nonexistent root is the
    `none` case of `Option FSTree` (on a nonexistent root `os.walk` yields no
    triples at all).

Printing is embedded by accumulating the printed lines in order; an exception
that no handler catches is the `uncaught` field of `RunResult`, and aborts the
remaining iteration exactly as a propagating Python exception would.
-/

/-- Outcome data of a completed child process: exit status and the two captured
streams (`stdout=subprocess.PIPE`, `stderr=subprocess.PIPE`). -/
structure ProcResult where
  returncode : Int
  stdout : String
  stderr : String
deriving DecidableEq

/-- What the operating system does with one attempt to spawn a child process:
either the process starts and runs to completion, or the spawn itself fails
(missing executable, permission denied), which `subprocess.run` surfaces as a
raised `OSError` rather than as an exit status. -/
inductive SpawnOutcome where
  | completed (r : ProcResult)
  | spawnFailure (msg : String)
deriving DecidableEq

/-- The ambient process-spawning behaviour: the outcome of spawning a child
with a given argument vector. Total and deterministic within one run. -/
def Spawn : Type := List String → SpawnOutcome

/-- The Python exceptions relevant to this program: `subprocess.CalledProcessError`
(raised by `check=True` on a non-zero exit status, carrying the captured
result) and the `OSError` family raised when spawning fails. -/
inductive PyError where
  | calledProcessError (r : ProcResult)
  | osError (msg : String)
deriving DecidableEq

/-- Embedding of `subprocess.run(cmd, check=True, stdout=PIPE, stderr=PIPE)`:
block until the child exits and return the captured result; with `check=True`
a non-zero exit status raises `CalledProcessError`; a spawn failure raises an
`OSError`, which is not a `CalledProcessError`. -/
def subprocess_run_check (spawn : Spawn) (cmd : List String) : Except PyError ProcResult :=
  match spawn cmd with
  | .spawnFailure msg => .error (.osError msg)
  | .completed r => if r.returncode = 0 then .ok r else .error (.calledProcessError r)

/-- The observable outcome of (part of) a run: the argument vectors of the
process spawns attempted, in order; the lines printed, in order; and the
exception, if any, that propagated out uncaught. -/
structure RunResult where
  invocations : List (List String)
  printed : List String
  uncaught : Option PyError
deriving DecidableEq

/-- The fixed argument vector of line 8 of the source:
`['glslangValidator', '-V', shader_path, '-o', output_path]`. -/
def glslangCommand (shader_path output_path : String) : List String :=
  ["glslangValidator", "-V", shader_path, "-o", output_path]

/-- Embedding of `compile_shader(shader_path, output_path)` (lines 4–15):
run the compiler via `subprocess_run_check`; on success print the
`Compiled ... -> ...` line; on a caught `CalledProcessError` print the
`Failed to compile ...` line with the decoded captured stderr; any other
exception (a spawn failure) is not caught and propagates. -/
def compile_shader (spawn : Spawn) (shader_path output_path : String) : RunResult :=
  match subprocess_run_check spawn (glslangCommand shader_path output_path) with
  | .ok _ =>
      { invocations := [glslangCommand shader_path output_path],
        printed := ["Compiled " ++ shader_path ++ " -> " ++ output_path],
        uncaught := none }
  | .error (.calledProcessError e) =>
      { invocations := [glslangCommand shader_path output_path],
        printed := ["Failed to compile " ++ shader_path ++ ": " ++ e.stderr],
        uncaught := none }
  | .error (.osError msg) =>
      { invocations := [glslangCommand shader_path output_path],
        printed := [],
        uncaught := some (.osError msg) }

mutual
/-- A finite directory tree: the regular files of this directory (by name) and
its named subdirectories. -/
inductive FSTree : Type where
  | node (files : List String) (subdirs : FSList)
/-- A finite list of named subdirectories. -/
inductive FSList : Type where
  | nil : FSList
  | cons (name : String) (tree : FSTree) (rest : FSList) : FSList
end

/-- `s` ends with `suffix`, comparing code points — the semantics of Python's
case-sensitive `str.endswith`. -/
def strEndsWith (s suffix : String) : Bool := List.isSuffixOf suffix.data s.data

/-- `s` starts with `pre`, comparing code points. -/
def strStartsWith (s pre : String) : Bool := List.isPrefixOf pre.data s.data

/-- Embedding of POSIX `os.path.join(a, b)` for a single component `b`:
an absolute `b` replaces `a`; otherwise a separator is inserted unless `a` is
empty or already ends with one. -/
def pathJoin (a b : String) : String :=
  if strStartsWith b "/" then b
  else if a = "" || strEndsWith a "/" then a ++ b
  else a ++ "/" ++ b

mutual
/-- Embedding of `os.walk` on an existing tree: top-down, the root's own
`(dirpath, filenames)` pair first, then each subdirectory in order. The
`dirnames` component of the Python triple is unused by the program and omitted. -/
def walk (path : String) : FSTree → List (String × List String)
  | .node files subdirs => (path, files) :: walkDirs path subdirs
/-- Walk each named subdirectory of `path` in order. -/
def walkDirs (path : String) : FSList → List (String × List String)
  | .nil => []
  | .cons name t rest => walk (pathJoin path name) t ++ walkDirs path rest
end

/-- `os.walk(directory)`: on a nonexistent root directory it yields no triples
at all (`none`); on an existing tree it enumerates the tree. -/
def osWalk (directory : String) (fs : Option FSTree) : List (String × List String) :=
  match fs with
  | none => []
  | some t => walk directory t

/-- The six recognized shader-source extensions of line 21 of the source. -/
def shaderExtensions : List String :=
  [".vert", ".frag", ".comp", ".geom", ".tesc", ".tese"]

/-- Embedding of `file.endswith(('.vert', '.frag', '.comp', '.geom', '.tesc', '.tese'))`:
true when the filename ends with at least one of the six extensions. -/
def matchesShaderExt (file : String) : Bool :=
  shaderExtensions.any (fun e => strEndsWith file e)

/-- The output-path derivation of line 23 of the source:
`output_path = shader_path + ".spv"`. -/
def outputPath (shader_path : String) : String := shader_path ++ ".spv"

/-- Sequencing of two run fragments, embedding ordinary Python control flow:
if the first fragment ended in an uncaught exception, the second never runs;
otherwise their spawns and printed lines concatenate in order. -/
def RunResult.andThen (a b : RunResult) : RunResult :=
  match a.uncaught with
  | some _ => a
  | none =>
      { invocations := a.invocations ++ b.invocations,
        printed := a.printed ++ b.printed,
        uncaught := b.uncaught }

/-- The inner loop of `compile_shaders_in_directory` (lines 20–24): for each
filename in one walk entry, if it matches a shader extension, join it to the
root, derive the output path and call `compile_shader`. -/
def processFiles (spawn : Spawn) (root : String) : List String → RunResult
  | [] => { invocations := [], printed := [], uncaught := none }
  | file :: rest =>
    if matchesShaderExt file then
      (compile_shader spawn (pathJoin root file) (pathJoin root file ++ ".spv")).andThen
        (processFiles spawn root rest)
    else
      processFiles spawn root rest

/-- The outer loop of `compile_shaders_in_directory` (line 19): fold the inner
loop over the walk entries in order. -/
def processEntries (spawn : Spawn) : List (String × List String) → RunResult
  | [] => { invocations := [], printed := [], uncaught := none }
  | entry :: rest => (processFiles spawn entry.1 entry.2).andThen (processEntries spawn rest)

/-- Embedding of `compile_shaders_in_directory(directory)` (lines 17–24),
parametrised by the ambient spawning behaviour and the filesystem under the
root directory. -/
def compile_shaders_in_directory (spawn : Spawn) (directory : String)
    (fs : Option FSTree) : RunResult :=
  processEntries spawn (osWalk directory fs)

/-- The full joined paths of the matched files of a list of walk entries:
for each entry, the files whose names match a shader extension, joined to the
entry's root, in walk order. -/
def entriesMatchedPaths (entries : List (String × List String)) : List String :=
  entries.flatMap (fun entry => ((entry.2).filter matchesShaderExt).map (pathJoin entry.1))

/-- The matched shader paths of a run: walk the root directory and keep, in
order, the joined paths of the files whose names match a shader extension. -/
def matchedPaths (directory : String) (fs : Option FSTree) : List String :=
  entriesMatchedPaths (osWalk directory fs)

/-- The line the program prints for the shader at path `p`, as a function of
the ambient spawn behaviour: the success line on exit status zero, the failure
line with the captured stderr otherwise. (The spawn-failure branch never
arises under the hypotheses of the theorems that use this.) -/
def reportLine (spawn : Spawn) (p : String) : String :=
  match spawn (glslangCommand p (p ++ ".spv")) with
  | .completed r =>
      if r.returncode = 0 then "Compiled " ++ p ++ " -> " ++ (p ++ ".spv")
      else "Failed to compile " ++ p ++ ": " ++ r.stderr
  | .spawnFailure msg => msg

/-- A spawn behaviour under which every invocation succeeds with exit status 0. -/
def spawnAlwaysOk : Spawn := fun _ => .completed ⟨0, "", ""⟩

/-- A spawn behaviour under which every invocation completes with exit status 1
and stderr text "ERR" — the failing stub of the spec's testable properties. -/
def spawnAlwaysErr : Spawn := fun _ => .completed ⟨1, "", "ERR"⟩

/-- A spawn behaviour under which every spawn attempt itself fails — the
behaviour of `subprocess.run` when `glslangValidator` is not installed. -/
def spawnNotFound : Spawn :=
  fun _ => .spawnFailure "FileNotFoundError: No such file or directory: glslangValidator"

/-- A sample tree: `x.vert` and `notes.txt` at the root, `y.frag` in `sub`. -/
def sampleTree : Option FSTree :=
  some (.node ["x.vert", "notes.txt"] (.cons "sub" (.node ["y.frag"] .nil) .nil))

/-- A sample tree with two matched files side by side at the root. -/
def twoShaderTree : Option FSTree := some (.node ["a.vert", "b.frag"] .nil)

/-- One `compile_shader` call whose spawn completes: it records the one
invocation, prints the success line or the failure line according to the exit
status, and lets no exception escape. -/
theorem compile_shader_of_completed (spawn : Spawn) (sp op : String) (r : ProcResult)
    (h : spawn (glslangCommand sp op) = SpawnOutcome.completed r) :
    compile_shader spawn sp op =
      { invocations := [glslangCommand sp op],
        printed := [if r.returncode = 0 then "Compiled " ++ sp ++ " -> " ++ op
                    else "Failed to compile " ++ sp ++ ": " ++ r.stderr],
        uncaught := none } := by
  unfold compile_shader subprocess_run_check
  rw [h]
  by_cases hrc : r.returncode = 0
  · simp [hrc]
  · simp [hrc]

/-- `reportLine` under a completed spawn is the success line or the failure
line according to the exit status. -/
theorem reportLine_of_completed (spawn : Spawn) (p : String) (r : ProcResult)
    (h : spawn (glslangCommand p (p ++ ".spv")) = SpawnOutcome.completed r) :
    reportLine spawn p =
      if r.returncode = 0 then "Compiled " ++ p ++ " -> " ++ (p ++ ".spv")
      else "Failed to compile " ++ p ++ ": " ++ r.stderr := by
  unfold reportLine
  rw [h]

/-- Inner loop, assuming every spawn attempt completes: the run fragment for
one walk entry invokes the fixed command once per matched file in order,
prints one report line per matched file in order, and raises nothing. -/
theorem processFiles_of_completed (spawn : Spawn) (root : String) (files : List String)
    (h : ∀ c, ∃ r, spawn c = SpawnOutcome.completed r) :
    processFiles spawn root files =
      { invocations := (files.filter matchesShaderExt).map
          (fun f => glslangCommand (pathJoin root f) (pathJoin root f ++ ".spv")),
        printed := (files.filter matchesShaderExt).map
          (fun f => reportLine spawn (pathJoin root f)),
        uncaught := none } := by
  induction files with
  | nil => rfl
  | cons f rest ih =>
    cases hm : matchesShaderExt f with
    | false => simp [processFiles, hm, ih]
    | true =>
      obtain ⟨r, hr⟩ := h (glslangCommand (pathJoin root f) (pathJoin root f ++ ".spv"))
      simp [processFiles, hm, ih, compile_shader_of_completed spawn _ _ r hr,
        RunResult.andThen, reportLine_of_completed spawn (pathJoin root f) r hr]

/-- Outer loop, assuming every spawn attempt completes: the whole run invokes
the fixed command once per matched path in order, prints one report line per
matched path in order, and raises nothing. -/
theorem processEntries_of_completed (spawn : Spawn) (entries : List (String × List String))
    (h : ∀ c, ∃ r, spawn c = SpawnOutcome.completed r) :
    processEntries spawn entries =
      { invocations := (entriesMatchedPaths entries).map
          (fun p => glslangCommand p (p ++ ".spv")),
        printed := (entriesMatchedPaths entries).map (reportLine spawn),
        uncaught := none } := by
  induction entries with
  | nil => rfl
  | cons entry rest ih =>
    simp [processEntries, processFiles_of_completed spawn entry.1 entry.2 h, ih,
      RunResult.andThen, entriesMatchedPaths, List.map_map, Function.comp]

/-- The whole program, assuming every spawn attempt completes: its observable
outcome is one fixed-template invocation and one report line per matched path,
in walk order, with no uncaught exception. -/
theorem run_of_completed (spawn : Spawn) (directory : String) (fs : Option FSTree)
    (h : ∀ c, ∃ r, spawn c = SpawnOutcome.completed r) :
    compile_shaders_in_directory spawn directory fs =
      { invocations := (matchedPaths directory fs).map
          (fun p => glslangCommand p (p ++ ".spv")),
        printed := (matchedPaths directory fs).map (reportLine spawn),
        uncaught := none } := by
  unfold compile_shaders_in_directory matchedPaths
  exact processEntries_of_completed spawn (osWalk directory fs) h

/-- The source-path argument (position 2) of each invocation, across the whole
run: exactly the matched paths, in walk order. -/
theorem invocations_paths_of_completed (spawn : Spawn) (directory : String)
    (fs : Option FSTree) (h : ∀ c, ∃ r, spawn c = SpawnOutcome.completed r) :
    (compile_shaders_in_directory spawn directory fs).invocations.map
      (fun c => c.getD 2 "") = matchedPaths directory fs := by
  rw [run_of_completed spawn directory fs h, List.map_map]
  have hid : ((fun c => List.getD c 2 "") ∘ fun p => glslangCommand p (p ++ ".spv"))
      = id := funext fun p => rfl
  rw [hid, List.map_id]

/-- The failure line can never coincide with a success line: they begin with
different characters. -/
theorem failLine_ne_successLine (p e q o : String) :
    ("Failed to compile " ++ p ++ ": " ++ e) ≠ ("Compiled " ++ q ++ " -> " ++ o) := by
  intro h
  have h1 := congrArg String.data h
  simp only [String.data_append] at h1
  have h2 : ("Failed to compile ").data = 'F' :: ("ailed to compile ").data := rfl
  have h3 : ("Compiled ").data = 'C' :: ("ompiled ").data := rfl
  simp only [h2, h3, List.cons_append, List.append_assoc] at h1
  exact absurd (List.cons_eq_cons.mp h1).1 (by decide)

/-- C1: For every directory tree rooted at the given directory, under any spawn
behaviour whose attempts all complete, the file paths passed to the compiler
invoker are exactly the files, at any nesting depth, whose names end with one
of the six extensions .vert, .frag, .comp, .geom, .tesc, .tese; no file with
an unrecognized name is ever passed. -/
theorem invoker_receives_exactly_matched_files (spawn : Spawn) (directory : String)
    (fs : Option FSTree) (h : ∀ c, ∃ r, spawn c = SpawnOutcome.completed r) :
    (compile_shaders_in_directory spawn directory fs).invocations.map
      (fun c => c.getD 2 "") = matchedPaths directory fs :=
  invocations_paths_of_completed spawn directory fs h

/-- C1 witness: on a sample tree with a matched file at the root, an unmatched
file at the root and a matched file one level down, exactly the two matched
paths are passed. -/
theorem invoker_receives_exactly_matched_files_witness :
    (compile_shaders_in_directory spawnAlwaysOk "shader" sampleTree).invocations.map
      (fun c => c.getD 2 "") = ["shader/x.vert", "shader/sub/y.frag"] := by
  rw [invoker_receives_exactly_matched_files spawnAlwaysOk "shader" sampleTree
    (fun _ => ⟨⟨0, "", ""⟩, rfl⟩)]
  decide

/-- C3: For any source path in any invocation of a run, the output-path
argument (position 4) is exactly the source-path argument (position 2) with
the literal suffix ".spv" appended to the full original filename; the source
path itself is passed unaltered. -/
theorem output_is_source_with_spv_suffix (spawn : Spawn) (directory : String)
    (fs : Option FSTree) (h : ∀ c, ∃ r, spawn c = SpawnOutcome.completed r) :
    ∀ c ∈ (compile_shaders_in_directory spawn directory fs).invocations,
      c.getD 4 "" = outputPath (c.getD 2 "") := by
  rw [run_of_completed spawn directory fs h]
  intro c hc
  rw [List.mem_map] at hc
  obtain ⟨p, _, rfl⟩ := hc
  rfl

/-- C3 witness: in the first invocation of a concrete run, the output-path
argument is the source-path argument with ".spv" appended. -/
theorem output_is_source_with_spv_suffix_witness :
    ((compile_shaders_in_directory spawnAlwaysOk "shader" sampleTree).invocations.getD 0 []).getD 4 ""
      = outputPath (((compile_shaders_in_directory spawnAlwaysOk "shader" sampleTree).invocations.getD 0 []).getD 2 "") :=
  output_is_source_with_spv_suffix spawnAlwaysOk "shader" sampleTree
    (fun _ => ⟨⟨0, "", ""⟩, rfl⟩) _ (by decide)

/-- C5: Every invocation of a run uses exactly the fixed argument template:
the executable name `glslangValidator`, the flag `-V`, the source path, the
flag `-o`, and the output path, in that order. (Capture of the two output
streams and blocking until the child terminates are represented in the model
by the `ProcResult` the spawn returns before the run continues.) -/
theorem invocations_use_fixed_template (spawn : Spawn) (directory : String)
    (fs : Option FSTree) (h : ∀ c, ∃ r, spawn c = SpawnOutcome.completed r) :
    (compile_shaders_in_directory spawn directory fs).invocations
      = (matchedPaths directory fs).map
          (fun p => ["glslangValidator", "-V", p, "-o", p ++ ".spv"]) := by
  rw [run_of_completed spawn directory fs h]
  rfl

/-- C5 witness: the two invocations of a concrete run, spelled out. -/
theorem invocations_use_fixed_template_witness :
    (compile_shaders_in_directory spawnAlwaysOk "assets" twoShaderTree).invocations
      = [["glslangValidator", "-V", "assets/a.vert", "-o", "assets/a.vert.spv"],
         ["glslangValidator", "-V", "assets/b.frag", "-o", "assets/b.frag.spv"]] := by
  rw [invocations_use_fixed_template spawnAlwaysOk "assets" twoShaderTree
    (fun _ => ⟨⟨0, "", ""⟩, rfl⟩)]
  decide

/-- C7: If the root directory is empty or does not exist, the program performs
zero compiler invocations, prints zero lines, and completes without raising
any error — for every spawn behaviour and every directory argument. -/
theorem empty_or_missing_root_yields_nothing :
    ∀ (spawn : Spawn) (directory : String),
      compile_shaders_in_directory spawn directory none =
        { invocations := [], printed := [], uncaught := none } ∧
      compile_shaders_in_directory spawn directory (some (FSTree.node [] FSList.nil)) =
        { invocations := [], printed := [], uncaught := none } :=
  fun _ _ => ⟨rfl, rfl⟩

/-- C8: The output-path derivation is injective: two distinct source paths
always yield two distinct output paths. -/
theorem outputPath_injective : ∀ p q : String, outputPath p = outputPath q → p = q := by
  intro p q h
  apply String.ext
  have h1 := congrArg String.data h
  simp only [outputPath, String.data_append] at h1
  exact List.append_cancel_right h1

/-- C8 witness: the derivation applied at a concrete path. -/
theorem outputPath_injective_witness :
    outputPath "shader/x.vert" = outputPath "shader/x.vert"
      ∧ ("shader/x.vert" : String) = "shader/x.vert" :=
  ⟨rfl, outputPath_injective "shader/x.vert" "shader/x.vert" rfl⟩

/-- C9: Each matched file is invoked exactly once per run — as many invocations
as matched paths overall, and for every path, as many invocations naming it as
the walk matched it. (The model is a strict sequential fold: each spawn's
result is consumed before the next file is considered.) -/
theorem each_matched_file_invoked_exactly_once (spawn : Spawn) (directory : String)
    (fs : Option FSTree) (h : ∀ c, ∃ r, spawn c = SpawnOutcome.completed r) :
    (compile_shaders_in_directory spawn directory fs).invocations.length
        = (matchedPaths directory fs).length ∧
    ∀ p : String,
      ((compile_shaders_in_directory spawn directory fs).invocations.map
        (fun c => c.getD 2 "")).count p = (matchedPaths directory fs).count p := by
  have hpaths := invocations_paths_of_completed spawn directory fs h
  constructor
  · rw [run_of_completed spawn directory fs h]
    simp
  · intro p
    rw [hpaths]

/-- C9 witness: on a concrete run, two invocations for two matched files, and
the first matched path is named by exactly one invocation. -/
theorem each_matched_file_invoked_exactly_once_witness :
    (compile_shaders_in_directory spawnAlwaysOk "x" twoShaderTree).invocations.length
        = (matchedPaths "x" twoShaderTree).length ∧
    ((compile_shaders_in_directory spawnAlwaysOk "x" twoShaderTree).invocations.map
        (fun c => c.getD 2 "")).count "x/a.vert" = (matchedPaths "x" twoShaderTree).count "x/a.vert" :=
  ⟨(each_matched_file_invoked_exactly_once spawnAlwaysOk "x" twoShaderTree
      (fun _ => ⟨⟨0, "", ""⟩, rfl⟩)).1,
   (each_matched_file_invoked_exactly_once spawnAlwaysOk "x" twoShaderTree
      (fun _ => ⟨⟨0, "", ""⟩, rfl⟩)).2 "x/a.vert"⟩

/-- C2: Under any spawn behaviour whose attempts all complete, no exception
escapes the run and every matched file is processed (one invocation each);
and for every matched file whose process exits with a non-zero status, the
diagnostic line carrying the source path and the captured stderr is printed. -/
theorem failed_file_reported_and_processing_continues (spawn : Spawn) (directory : String)
    (fs : Option FSTree) (h : ∀ c, ∃ r, spawn c = SpawnOutcome.completed r) :
    (compile_shaders_in_directory spawn directory fs).uncaught = none ∧
    (compile_shaders_in_directory spawn directory fs).invocations.length
      = (matchedPaths directory fs).length ∧
    ∀ p ∈ matchedPaths directory fs, ∀ r : ProcResult,
      spawn (glslangCommand p (p ++ ".spv")) = SpawnOutcome.completed r →
      r.returncode ≠ 0 →
      ("Failed to compile " ++ p ++ ": " ++ r.stderr)
        ∈ (compile_shaders_in_directory spawn directory fs).printed := by
  have hrun := run_of_completed spawn directory fs h
  refine ⟨by rw [hrun], by rw [hrun]; simp, ?_⟩
  intro p hp r hr hnz
  rw [hrun]
  have hline : reportLine spawn p = "Failed to compile " ++ p ++ ": " ++ r.stderr := by
    rw [reportLine_of_completed spawn p r hr, if_neg hnz]
  rw [← hline]
  exact List.mem_map_of_mem _ hp

/-- C2 witness: with the always-failing stub writing "ERR", the first matched
file's diagnostic is printed, under a run that processed all matched files. -/
theorem failed_file_reported_and_processing_continues_witness :
    ("Failed to compile " ++ "work/a.vert" ++ ": " ++ "ERR")
      ∈ (compile_shaders_in_directory spawnAlwaysErr "work" twoShaderTree).printed :=
  (failed_file_reported_and_processing_continues spawnAlwaysErr "work" twoShaderTree
      (fun _ => ⟨⟨1, "", "ERR"⟩, rfl⟩)).2.2
    "work/a.vert" (by decide) ⟨1, "", "ERR"⟩ rfl (by decide)

/-- C6: Under any spawn behaviour whose attempts all complete, the printed
lines are exactly one report line per matched path in order, and a file's
report line is the success line "Compiled p -> p.spv" if and only if its
process exited with status zero (otherwise it is the failure line). -/
theorem success_line_iff_zero_exit (spawn : Spawn) (directory : String) (fs : Option FSTree)
    (h : ∀ c, ∃ r, spawn c = SpawnOutcome.completed r) :
    (compile_shaders_in_directory spawn directory fs).printed
      = (matchedPaths directory fs).map (reportLine spawn) ∧
    ∀ (p : String) (r : ProcResult),
      spawn (glslangCommand p (p ++ ".spv")) = SpawnOutcome.completed r →
      ((reportLine spawn p = "Compiled " ++ p ++ " -> " ++ (p ++ ".spv"))
        ↔ r.returncode = 0) := by
  refine ⟨by rw [run_of_completed spawn directory fs h], ?_⟩
  intro p r hr
  rw [reportLine_of_completed spawn p r hr]
  by_cases hrc : r.returncode = 0
  · simp [hrc]
  · rw [if_neg hrc]
    constructor
    · intro hline
      exact absurd hline (failLine_ne_successLine p r.stderr p (p ++ ".spv"))
    · intro hc
      exact absurd hc hrc

/-- C6 witness: under the always-succeeding stub, a concrete file's report
line is the success line exactly because its exit status is zero. -/
theorem success_line_iff_zero_exit_witness :
    reportLine spawnAlwaysOk "demo/a.vert"
      = "Compiled " ++ "demo/a.vert" ++ " -> " ++ ("demo/a.vert" ++ ".spv")
      ↔ (0 : Int) = 0 :=
  (success_line_iff_zero_exit spawnAlwaysOk "demo" twoShaderTree
      (fun _ => ⟨⟨0, "", ""⟩, rfl⟩)).2 "demo/a.vert" ⟨0, "", ""⟩ rfl

/-- C4 counterexample: with a spawn behaviour under which the compiler cannot
be started at all (a missing executable), the run on a tree with two matched
files aborts with an uncaught error after the first matched file: the second
file is never invoked and no diagnostic line is printed — so a missing
executable does not surface like a non-zero exit and does terminate
processing of subsequent files. -/
theorem missing_executable_aborts_run :
    (compile_shaders_in_directory spawnNotFound "shader" twoShaderTree).uncaught
        = some (.osError "FileNotFoundError: No such file or directory: glslangValidator") ∧
    (compile_shaders_in_directory spawnNotFound "shader" twoShaderTree).invocations
        = [["glslangValidator", "-V", "shader/a.vert", "-o", "shader/a.vert.spv"]] ∧
    (compile_shaders_in_directory spawnNotFound "shader" twoShaderTree).printed = [] := by
  decide

/-- C4 amended: a compiler invocation that completes with a non-zero exit
status — e.g. a genuine compilation error — surfaces as captured stderr, is
converted into the printed diagnostic, and (under a spawn behaviour whose
attempts all complete) no exception ever escapes the run; a spawn failure such
as a missing executable or a permissions failure instead raises an uncaught
exception. -/
theorem nonzero_exit_contained_and_reported (spawn : Spawn) (directory : String)
    (fs : Option FSTree) (h : ∀ c, ∃ r, spawn c = SpawnOutcome.completed r) :
    (compile_shaders_in_directory spawn directory fs).uncaught = none ∧
    ∀ (p : String) (r : ProcResult),
      spawn (glslangCommand p (p ++ ".spv")) = SpawnOutcome.completed r →
      r.returncode ≠ 0 →
      compile_shader spawn p (p ++ ".spv") =
        { invocations := [glslangCommand p (p ++ ".spv")],
          printed := ["Failed to compile " ++ p ++ ": " ++ r.stderr],
          uncaught := none } := by
  refine ⟨by rw [run_of_completed spawn directory fs h], ?_⟩
  intro p r hr hnz
  rw [compile_shader_of_completed spawn p (p ++ ".spv") r hr, if_neg hnz]

/-- C4 amended witness: the always-failing stub's outcome on one concrete
file: the one invocation, the one diagnostic line, nothing uncaught. -/
theorem nonzero_exit_contained_and_reported_witness :
    compile_shader spawnAlwaysErr "z.tese" ("z.tese" ++ ".spv") =
      { invocations := [glslangCommand "z.tese" ("z.tese" ++ ".spv")],
        printed := ["Failed to compile " ++ "z.tese" ++ ": " ++ "ERR"],
        uncaught := none } :=
  (nonzero_exit_contained_and_reported spawnAlwaysErr "shader" twoShaderTree
      (fun _ => ⟨⟨1, "", "ERR"⟩, rfl⟩)).2
    "z.tese" ⟨1, "", "ERR"⟩ rfl (by decide)

/-- C10: Extension matching is a case-sensitive suffix check on the full
filename: "X.VERT" is never matched, a filename that is exactly ".vert" is
matched, "a.tar.vert" is matched, and in general a filename matches exactly
when one of the six lower-case extensions is a suffix of it. -/
theorem extension_matching_case_sensitive_suffix :
    matchesShaderExt "X.VERT" = false ∧
    matchesShaderExt ".vert" = true ∧
    matchesShaderExt "a.tar.vert" = true ∧
    ∀ s : String, matchesShaderExt s = true ↔ ∃ e ∈ shaderExtensions, strEndsWith s e = true := by
  refine ⟨by decide, by decide, by decide, fun s => ?_⟩
  simp [matchesShaderExt, List.any_eq_true]
